import Mathlib

/-!
Verification of the roaport upload backend (`main.py`) against its
natural-language specification.

The development shallowly embeds the three operations the claims are about:

* `publish_to_rabbitmq` — message validation followed by a bounded retry
  loop over a broker connection (source lines 101-246);
* `save_metadata_to_db` — the transactional metadata insert
  (source lines 78-98);
* `upload_file` — the upload endpoint pipeline (source lines 293-393).

External effects (broker, database, object storage, the filesystem) are
modelled by explicit oracles describing which calls succeed or fail;
Python string builtins used by the source are modelled by executable
Lean functions over `List Char`.
-/

/-! ## EventPublisher: `publish_to_rabbitmq` -/

/-- Outcome of one `basic_publish` + `tx_commit` attempt, one constructor per
`except` clause of the source's retry loop (lines 217-240): success,
`UnroutableError`, the two `...ClosedByBroker` errors, the three errors of the
second recoverable clause, and the catch-all `Exception`. -/
inductive PubOutcome where
  | ok
  | unroutable
  | channelClosedByBroker
  | connectionClosedByBroker
  | channelWrongState
  | streamLost
  | amqpConnectionError
  | otherError
deriving DecidableEq, Repr

/-- The recoverable connection/channel errors named by the two dedicated
retry clauses (source lines 220 and 228). -/
def PubOutcome.isRecoverableConn : PubOutcome → Bool
  | .channelClosedByBroker | .connectionClosedByBroker
  | .channelWrongState | .streamLost | .amqpConnectionError => true
  | _ => false

/-- Broker oracle for one iteration of the retry loop: whether
`ensure_connection_and_confirm_mode` would succeed in establishing a fresh
connection and channel (consulted only when none exists), and the outcome of
the publish attempt on the resulting channel. -/
structure BrokerStep where
  connectOk : Bool
  outcome : PubOutcome

/-- Result of a `publish_to_rabbitmq` call: the returned boolean, the number
of loop iterations executed (each consults the broker once), the final state
of the shared connection/channel pair (`true` when a usable pair is left
behind), and whether the large-message warning was logged. -/
structure PubResult where
  success : Bool
  attempts : Nat
  connected : Bool
  warned : Bool
deriving DecidableEq, Repr

/-- The source's fixed retry budget `MAX_RETRIES = 3` (line 181). -/
def MAX_RETRIES : Nat := 3

/-- The `while retry_count < MAX_RETRIES` loop of `publish_to_rabbitmq`
(lines 184-246).  `fuel` is `MAX_RETRIES - retry_count`; `n` counts the
iterations executed so far; `connected` is whether the global
connection/channel pair is usable.  A failed `ensure_connection` and each
recoverable publish error consume one unit of budget and leave the pair
discarded (`rabbitmq_channel = None`, `rabbitmq_connection = None`); success
and `UnroutableError` return at once and keep the pair. -/
def publishLoop (broker : Nat → BrokerStep) : Nat → Bool → Nat → Bool × Nat × Bool
  | n, connected, 0 => (false, n, connected)
  | n, connected, fuel + 1 =>
    let step := broker n
    if connected || step.connectOk then
      match step.outcome with
      | PubOutcome.ok => (true, n + 1, true)
      | PubOutcome.unroutable => (false, n + 1, true)
      | _ => publishLoop broker (n + 1) false fuel
    else
      publishLoop broker (n + 1) false fuel

/-- The message as seen by the validation block (lines 157-179): which keys
the dict has, whether `json.dumps` succeeds on it, and the byte size of the
serialized form. -/
structure QueueMessage where
  keys : List String
  serializable : Bool
  size : Nat
deriving DecidableEq, Repr

/-- The required fields checked at line 169. -/
def requiredFields : List String := ["type", "id", "image_url", "report_id"]

/-- The entire `publish_to_rabbitmq` function (lines 101-246): serialize the
message (a failure returns `False` from the `except` at line 177), log a
warning when the serialized size exceeds the 1 MB threshold (line 165),
reject a message missing a required field (line 171), then run the retry
loop with budget `MAX_RETRIES` against the broker oracle, starting from the
current state of the shared connection/channel pair. -/
def publish_to_rabbitmq (msg : QueueMessage) (connected : Bool)
    (broker : Nat → BrokerStep) : PubResult :=
  if msg.serializable = false then ⟨false, 0, connected, false⟩
  else
    let warned := Nat.blt (1024 * 1024) msg.size
    match requiredFields.filter (fun f => !(msg.keys.contains f)) with
    | _ :: _ => ⟨false, 0, connected, warned⟩
    | [] =>
      match publishLoop broker 0 connected MAX_RETRIES with
      | (s, n, c) => ⟨s, n, c, warned⟩

/-- A message with all four required keys that serializes fine. -/
def wellFormedMsg : QueueMessage := ⟨requiredFields, true, 64⟩

/-! ## Python string builtins used by `upload_file` and `save_metadata_to_db` -/

/-- Body of `pyReplace`: replace the leftmost non-overlapping occurrences of
`pat` by `rep`, scanning left to right.  `fuel` bounds the recursion; the
caller passes the length of the scanned list, which suffices because every
step consumes at least one character when `pat` is nonempty. -/
def replaceAux (pat rep : List Char) : Nat → List Char → List Char
  | _, [] => []
  | 0, s => s
  | fuel + 1, c :: s =>
    if pat.isPrefixOf (c :: s) then
      rep ++ replaceAux pat rep fuel ((c :: s).drop pat.length)
    else
      c :: replaceAux pat rep fuel s

/-- Models the Python builtin `str.replace(pat, rep)` for a nonempty pattern:
all non-overlapping occurrences are replaced, scanning left to right.  (The
source only ever calls it with nonempty literal patterns.) -/
def pyReplace (s pat rep : String) : String :=
  if pat.data = [] then s
  else String.mk (replaceAux pat.data rep.data s.data.length s.data)

/-- Models the Python builtin `str.split(",")` (split on every comma,
keeping empty segments; an input without commas yields one segment). -/
def splitComma : List Char → List (List Char)
  | [] => [[]]
  | c :: s =>
    if c = ',' then [] :: splitComma s
    else
      match splitComma s with
      | [] => [[c]]
      | g :: gs => (c :: g) :: gs

/-- Models the Python builtin `str.endswith(suffix)`. -/
def pyEndsWith (s suffix : String) : Bool :=
  suffix.data.reverse.isPrefixOf s.data.reverse

/-- Models the Python builtin `str.strip()` (drop whitespace from both
ends). -/
def pyStrip (s : String) : String :=
  String.mk (((s.data.dropWhile Char.isWhitespace).reverse.dropWhile
    Char.isWhitespace).reverse)

/-- Models the Python builtin `str.lower()` (the source only applies it to
ASCII report types). -/
def pyLower (s : String) : String :=
  String.mk (s.data.map Char.toLower)

/-- The literal `'latitude'` key prefix stripped by the first `replace` of
source line 306 (an opening brace followed by the quoted key and a colon). -/
def latKey : String := "\x7b\"latitude\":"

/-- The literal `'longitude'` key stripped by the second `replace` of source
line 306 (the quoted key and a colon, no brace). -/
def lonKey : String := "\"longitude\":"

/-- Source line 306: strip the three literal substrings from the raw
`location` form field and split the remainder on commas; the tuple
assignment succeeds exactly when the split yields two parts, and otherwise
raises `ValueError` (modelled as `none`). -/
def parseLocation (location : String) : Option (String × String) :=
  let stripped := pyReplace (pyReplace (pyReplace location latKey "") lonKey "") "\x7d" ""
  match (splitComma stripped.data).map (fun l => String.mk l) with
  | [latitude, longitude] => some (latitude, longitude)
  | _ => none

example : parseLocation "\x7b\"latitude\":1.0,\"longitude\":2.0\x7d" = some ("1.0", "2.0") := by decide

example : parseLocation "\x7b\"latitude\":1.0, \"longitude\":2.0\x7d" = some ("1.0", " 2.0") := by decide

example : parseLocation "\x7b\"longitude\":2.0,\"latitude\":1.0\x7d" = some ("\x7b2.0", "\"latitude\":1.0") := by decide

example : parseLocation "x" = none := by decide

example : pyEndsWith "cat.jpeg" ".jpg" = false := by decide

example : pyEndsWith "cat.png" ".png" = true := by decide

example : pyStrip "alice " = "alice" := by decide

example : pyLower "Pothole" = "pothole" := by decide

/-! ## MetadataStore: `save_metadata_to_db` -/

/-- One row of the `reports` relation, with the store-assigned identifier and
the columns of the `INSERT` at source lines 83-88. -/
structure Row where
  id : Nat
  name : String
  longitude : String
  latitude : String
  bucket_name : String
  file_name : String
  username : String
  type : String
  detail : String
deriving DecidableEq, Repr

/-- Committed database state: the visible rows and the next value of the
identifier sequence backing `RETURNING id`. -/
structure DB where
  rows : List Row
  nextId : Nat
deriving DecidableEq, Repr

/-- Oracle for one `save_metadata_to_db` call: whether `cursor.execute` plus
`fetchone` succeed, and whether `cnx.commit` succeeds.  Any failure lands in
the `except` clause of lines 94-98. -/
structure DbEnv where
  executeOk : Bool
  commitOk : Bool
deriving DecidableEq, Repr

/-- An `HTTPException` as raised by the source: status code and detail. -/
structure HttpError where
  code : Nat
  detail : String
deriving DecidableEq, Repr

/-- The exception raised at source line 98. -/
def dbFailure : HttpError := ⟨500, "Failed to save metadata to database"⟩

/-- The function `save_metadata_to_db` (source lines 78-98): inside one
transaction, insert a row holding the arguments with `username.strip()` and
`type.lower()` applied (line 88), fetch the generated identifier, and commit.
On any failure the transaction is rolled back (no row becomes visible; the
identifier sequence, as in PostgreSQL, does not roll back once the insert
executed) and an `HTTPException(500)` is raised. -/
def save_metadata_to_db (db : DB) (env : DbEnv)
    (name longitude latitude bucket_name file_name username type detail : String) :
    Except HttpError Nat × DB :=
  if env.executeOk = false then (Except.error dbFailure, db)
  else
    let report_id := db.nextId
    let newRow : Row :=
      ⟨report_id, name, longitude, latitude, bucket_name, file_name,
        pyStrip username, pyLower type, detail⟩
    if env.commitOk = false then (Except.error dbFailure, ⟨db.rows, report_id + 1⟩)
    else (Except.ok report_id, ⟨db.rows ++ [newRow], report_id + 1⟩)

/-! ## UploadOrchestrator: `upload_file` -/

/-- The form fields and file of one POST to `/upload/` (source lines
294-301), with the file's bytes and declared metadata. -/
structure UploadRequest where
  filename : String
  content_type : String
  file_content : String
  location : String
  name : String
  username : String
  type : String
  description : String
deriving Repr

/-- The success body returned at source lines 386-393. -/
structure UploadResponse where
  filename : String
  content_type : String
  file_hash : String
  location : String
  name : String
deriving DecidableEq, Repr

/-- Python exceptions that escape `upload_file` other than `HTTPException`:
the `ValueError` of the tuple assignment at line 306, and an `OSError` from
`os.remove` in the `finally` block at line 383. -/
inductive PyError where
  | unpackValueError
  | removeOSError
deriving DecidableEq, Repr

/-- HTTP-level outcome of one `upload_file` call: a JSON success body, an
`HTTPException`, or an uncaught Python exception. -/
inductive UploadOutcome where
  | ok (resp : UploadResponse)
  | httpError (code : Nat) (detail : String)
  | exn (e : PyError)
deriving DecidableEq, Repr

/-- Behaviour of the `publish_to_rabbitmq(message)` call as observed by the
endpoint (lines 367-376): it returns a boolean or raises. -/
inductive PubCall where
  | returns (b : Bool)
  | raises
deriving DecidableEq, Repr

/-- The message dict built at source lines 361-366. -/
structure NotificationEvent where
  type : String
  id : String
  image_url : String
  report_id : Nat
deriving DecidableEq, Repr

/-- Side effects of one `upload_file` call: whether the temporary file was
ever created, whether it still exists at the end, whether the blob upload
completed, the resulting database state, the event handed to the publish
call, and what that call did. -/
structure UploadState where
  tempCreated : Bool
  tempExists : Bool
  blobWritten : Bool
  db : DB
  event : Option NotificationEvent
  pubDone : Option PubCall
deriving DecidableEq, Repr

/-- Oracle for the external world of one `upload_file` call: the SHA-256 hex
digest function, the `uuid.uuid4()` value drawn at line 349, whether
`upload_to_blob` succeeds, the database oracle, the behaviour of the publish
call, and whether `os.remove` succeeds. -/
structure UploadEnv where
  digest : String → String
  uuid : String
  blobOk : Bool
  dbEnv : DbEnv
  pubCall : PubCall
  removeOk : Bool

/-- Replace the publish behaviour of an environment, keeping the rest. -/
def UploadEnv.setPub (env : UploadEnv) (p : PubCall) : UploadEnv :=
  ⟨env.digest, env.uuid, env.blobOk, env.dbEnv, p, env.removeOk⟩

/-- The constant `BUCKET_NAME` (source line 29). -/
def BUCKET_NAME : String := "cloud-test-bucket"

/-- The allow-list at source line 315. -/
def allowed_content_types : List String := ["image/png", "image/jpeg"]

/-- Models the Python standard library call `mimetypes.guess_extension`
(source line 322) on the two allow-listed types: `.png` for `image/png` and
the platform canonical `.jpg` for `image/jpeg`.  Other types never reach the
call, because the allow-list gate at line 316 precedes it; they are modelled
as `none`, which line 322 turns into the empty string via `or ""`. -/
def guess_extension (content_type : String) : Option String :=
  if content_type = "image/png" then some ".png"
  else if content_type = "image/jpeg" then some ".jpg"
  else none

/-- The detail of the `HTTPException(500)` raised at source line 380. -/
def uploadFailedDetail : String :=
  "Failed to upload file to blob storage or save metadata"

/-- The `finally` block of source lines 381-383: `os.remove(tmp_path)` is not
guarded, so when it fails its `OSError` replaces whatever outcome (return
value or exception) was in flight; when it succeeds, the temporary file is
gone and the in-flight outcome stands. -/
def finallyRemove (removeOk : Bool) (outcome : UploadOutcome) (st : UploadState) :
    UploadOutcome × UploadState :=
  if removeOk then
    (outcome, ⟨st.tempCreated, false, st.blobWritten, st.db, st.event, st.pubDone⟩)
  else
    (UploadOutcome.exn PyError.removeOSError, st)

/-- The `/upload/` endpoint body `upload_file` (source lines 293-393), in
source order: parse the `location` field by literal substring removal (line
306, `ValueError` when the split does not yield two parts); hash the bytes;
check the declared MIME type against the allow-list (415 at line 317); check
the filename suffix against the canonical extension (400 at line 324); write
the bytes to a temporary file; build the destination key from a fresh UUID
and the extension; inside `try`: upload the blob, insert the metadata row,
build the notification message and call `publish_to_rabbitmq` inside an
inner `try` whose `except` swallows every exception (lines 375-376), while
the outer `except` converts blob or metadata failures to an
`HTTPException(500)` (line 380); `finally`: remove the temporary file. -/
def upload_file (req : UploadRequest) (db : DB) (env : UploadEnv) :
    UploadOutcome × UploadState :=
  match parseLocation req.location with
  | none => (UploadOutcome.exn PyError.unpackValueError, ⟨false, false, false, db, none, none⟩)
  | some (latitude, longitude) =>
    let file_hash := env.digest req.file_content
    if (allowed_content_types.contains req.content_type) = false then
      (UploadOutcome.httpError 415 ("Unsupported file type: " ++ req.content_type),
        ⟨false, false, false, db, none, none⟩)
    else
      let expected_extension := (guess_extension req.content_type).getD ""
      if (pyEndsWith req.filename expected_extension) = false then
        (UploadOutcome.httpError 400
          ("Filename extension does not match file type: expected " ++ expected_extension),
          ⟨false, false, false, db, none, none⟩)
      else
        let destination_file := env.uuid ++ expected_extension
        if env.blobOk = false then
          finallyRemove env.removeOk (UploadOutcome.httpError 500 uploadFailedDetail)
            ⟨true, true, false, db, none, none⟩
        else
          match save_metadata_to_db db env.dbEnv req.name longitude latitude
              BUCKET_NAME destination_file req.username req.type req.description with
          | (Except.error _, db2) =>
            finallyRemove env.removeOk (UploadOutcome.httpError 500 uploadFailedDetail)
              ⟨true, true, true, db2, none, none⟩
          | (Except.ok report_id, db2) =>
            let message : NotificationEvent :=
              ⟨req.type, destination_file,
                "https://img.roaport.com/" ++ destination_file, report_id⟩
            finallyRemove env.removeOk
              (UploadOutcome.ok
                ⟨req.filename, req.content_type, file_hash, req.location, req.name⟩)
              ⟨true, true, true, db2, some message, some env.pubCall⟩

/-- Whether a request passes both content checks after a successful location
parse (the conditions of source lines 306, 316 and 323). -/
def passesValidation (req : UploadRequest) : Bool :=
  (parseLocation req.location).isSome &&
  allowed_content_types.contains req.content_type &&
  pyEndsWith req.filename ((guess_extension req.content_type).getD "")

/-- A concrete happy-path request matching the end-to-end scenario of the
specification. -/
def aliceReq : UploadRequest :=
  ⟨"cat.png", "image/png", "PNGBYTES", "\x7b\"latitude\":1.0,\"longitude\":2.0\x7d",
    "Alice", "alice ", "Pothole", "big hole"⟩

/-- A concrete all-success environment. -/
def okEnv : UploadEnv :=
  ⟨fun _ => "d41d8cd9", "u-1234", true, ⟨true, true⟩, PubCall.returns true, true⟩

/-- An empty database whose identifier sequence starts at 7. -/
def db7 : DB := ⟨[], 7⟩

example :
    upload_file aliceReq db7 okEnv =
      (UploadOutcome.ok ⟨"cat.png", "image/png", "d41d8cd9",
          "\x7b\"latitude\":1.0,\"longitude\":2.0\x7d", "Alice"⟩,
        ⟨true, false, true,
          ⟨[⟨7, "Alice", "2.0", "1.0", "cloud-test-bucket", "u-1234.png",
              "alice", "pothole", "big hole"⟩], 8⟩,
          some ⟨"Pothole", "u-1234.png", "https://img.roaport.com/u-1234.png", 7⟩,
          some (PubCall.returns true)⟩) := by decide

/-! ## Lemmas about the retry loop -/

/-- When a usable connection exists or can be established and the attempt
fails with a recoverable connection/channel error, one iteration of the
retry loop consumes one unit of budget and restarts disconnected. -/
theorem publishLoop_recoverable_step (broker : Nat → BrokerStep) (n fuel : Nat)
    (c : Bool) (hc : c = true ∨ (broker n).connectOk = true)
    (h : (broker n).outcome.isRecoverableConn = true) :
    publishLoop broker n c (fuel + 1) = publishLoop broker (n + 1) false fuel := by
  have hcc : (c || (broker n).connectOk) = true := by
    rcases hc with h1 | h1 <;> simp [h1]
  simp only [publishLoop, hcc, if_true]
  cases ho : (broker n).outcome <;>
    simp [ho, PubOutcome.isRecoverableConn] at h ⊢

theorem natThreeSucc : MAX_RETRIES = 2 + 1 := rfl

theorem natTwoSucc : (2 : Nat) = 1 + 1 := rfl

theorem natOneSucc : (1 : Nat) = 0 + 1 := rfl

/-- C2: on a well-formed message, each recoverable connection/channel failure
consumes exactly one unit of the fixed budget of `MAX_RETRIES = 3` and
restarts from a fresh connection; a broker that fails the first two attempts
recoverably and accepts the third yields success after exactly 3 attempts; a
broker that always fails recoverably yields failure after exactly 3 attempts
and no further attempt is made; an unroutable message fails immediately
after 1 attempt, keeping the existing connection and channel. -/
theorem publish_retry_policy (msg : QueueMessage) (c : Bool)
    (broker : Nat → BrokerStep)
    (hser : msg.serializable = true)
    (hkeys : requiredFields.filter (fun f => !(msg.keys.contains f)) = []) :
    (∀ n fuel c2, (c2 = true ∨ (broker n).connectOk = true) →
      (broker n).outcome.isRecoverableConn = true →
      publishLoop broker n c2 (fuel + 1) = publishLoop broker (n + 1) false fuel) ∧
    ((∀ n, (broker n).connectOk = true) →
      (broker 0).outcome.isRecoverableConn = true →
      (broker 1).outcome.isRecoverableConn = true →
      (broker 2).outcome = PubOutcome.ok →
      publish_to_rabbitmq msg c broker =
        ⟨true, 3, true, Nat.blt (1024 * 1024) msg.size⟩) ∧
    ((∀ n, (broker n).connectOk = true) →
      (∀ n, (broker n).outcome.isRecoverableConn = true) →
      publish_to_rabbitmq msg c broker =
        ⟨false, 3, false, Nat.blt (1024 * 1024) msg.size⟩) ∧
    ((broker 0).outcome = PubOutcome.unroutable →
      publish_to_rabbitmq msg true broker =
        ⟨false, 1, true, Nat.blt (1024 * 1024) msg.size⟩) := by
  have hkeys2 : requiredFields.filter (fun f => !decide (f ∈ msg.keys)) = [] := by
    simpa using hkeys
  refine ⟨fun n fuel c2 hc h => publishLoop_recoverable_step broker n fuel c2 hc h,
    fun hconn h0 h1 h2 => ?_, fun hconn hrec => ?_, fun h0 => ?_⟩
  · have hL : publishLoop broker 0 c MAX_RETRIES = (true, 3, true) := by
      rw [natThreeSucc,
        publishLoop_recoverable_step broker 0 2 c (Or.inr (hconn 0)) h0, natTwoSucc,
        publishLoop_recoverable_step broker 1 1 false (Or.inr (hconn 1)) h1, natOneSucc]
      simp [publishLoop, hconn 2, h2]
    simp [publish_to_rabbitmq, hser, hkeys2, hL]
  · have hL : publishLoop broker 0 c MAX_RETRIES = (false, 3, false) := by
      rw [natThreeSucc,
        publishLoop_recoverable_step broker 0 2 c (Or.inr (hconn 0)) (hrec 0), natTwoSucc,
        publishLoop_recoverable_step broker 1 1 false (Or.inr (hconn 1)) (hrec 1), natOneSucc,
        publishLoop_recoverable_step broker 2 0 false (Or.inr (hconn 2)) (hrec 2)]
      rfl
    simp [publish_to_rabbitmq, hser, hkeys2, hL]
  · have hL : publishLoop broker 0 true MAX_RETRIES = (false, 1, true) := by
      rw [natThreeSucc]
      simp [publishLoop, h0]
    simp [publish_to_rabbitmq, hser, hkeys2, hL]

/-- Witness for `publish_retry_policy`: a broker closing the stream on the
first two attempts and accepting the third yields success after exactly 3
attempts. -/
theorem publish_retry_policy_witness :
    publish_to_rabbitmq wellFormedMsg false
      (fun n => ⟨true, if n < 2 then PubOutcome.streamLost else PubOutcome.ok⟩) =
      ⟨true, 3, true, false⟩ := by
  have h := (publish_retry_policy wellFormedMsg false
      (fun n => ⟨true, if n < 2 then PubOutcome.streamLost else PubOutcome.ok⟩)
      rfl rfl).2.1
  exact h (fun n => rfl) rfl rfl rfl

/-- C7: message validation precedes all network activity: a message that
cannot be serialized fails with no broker interaction; a serializable
message missing a required field fails with no broker interaction and no
retry budget consumed (0 attempts, connection state untouched); the
serialized-size check only sets the warning flag and the success of the call
never depends on the size. -/
theorem publish_validation_before_network (msg : QueueMessage) (c : Bool)
    (broker : Nat → BrokerStep) :
    (msg.serializable = false →
      publish_to_rabbitmq msg c broker = ⟨false, 0, c, false⟩) ∧
    (msg.serializable = true →
      ∀ f ∈ requiredFields, msg.keys.contains f = false →
      publish_to_rabbitmq msg c broker =
        ⟨false, 0, c, Nat.blt (1024 * 1024) msg.size⟩) ∧
    (msg.serializable = true →
      (publish_to_rabbitmq msg c broker).warned = Nat.blt (1024 * 1024) msg.size) ∧
    (∀ size1 size2 : Nat,
      (publish_to_rabbitmq ⟨msg.keys, msg.serializable, size1⟩ c broker).success =
      (publish_to_rabbitmq ⟨msg.keys, msg.serializable, size2⟩ c broker).success) := by
  refine ⟨fun h => by simp [publish_to_rabbitmq, h], fun hser f hmem hcont => ?_,
    fun hser => ?_, fun size1 size2 => ?_⟩
  · have hnotmem : f ∉ msg.keys := by simpa using hcont
    cases hf : requiredFields.filter (fun g => !decide (g ∈ msg.keys)) with
    | nil =>
      have : f ∈ requiredFields.filter (fun g => !decide (g ∈ msg.keys)) :=
        List.mem_filter.mpr ⟨hmem, by simp [hnotmem]⟩
      rw [hf] at this
      exact absurd this (List.not_mem_nil f)
    | cons a l => simp [publish_to_rabbitmq, hser, hf]
  · cases hf : requiredFields.filter (fun f => !decide (f ∈ msg.keys)) with
    | nil =>
      rcases hL : publishLoop broker 0 c MAX_RETRIES with ⟨s, n, c2⟩
      simp [publish_to_rabbitmq, hser, hf, hL]
    | cons a l => simp [publish_to_rabbitmq, hser, hf]
  · cases hser : msg.serializable with
    | false => simp [publish_to_rabbitmq, hser]
    | true =>
      cases hf : requiredFields.filter (fun f => !decide (f ∈ msg.keys)) with
      | nil =>
        rcases hL : publishLoop broker 0 c MAX_RETRIES with ⟨s, n, c2⟩
        simp [publish_to_rabbitmq, hser, hf, hL]
      | cons a l => simp [publish_to_rabbitmq, hser, hf]

/-- Witness for `publish_validation_before_network`: a 2 MB message missing
two of the required fields fails with zero attempts, the connection state
untouched, and the large-message warning logged. -/
theorem publish_validation_before_network_witness :
    publish_to_rabbitmq ⟨["type", "id"], true, 2000000⟩ true
      (fun _ => ⟨true, PubOutcome.ok⟩) = ⟨false, 0, true, true⟩ := by
  have h := (publish_validation_before_network ⟨["type", "id"], true, 2000000⟩ true
      (fun _ => ⟨true, PubOutcome.ok⟩)).2.1
  exact h rfl "image_url" (by decide) rfl

/-- C1: the HTTP-level outcome of `upload_file` never depends on what the
publish call does (returning success, returning failure after its retries,
or raising), and when the blob write, the metadata transaction and the
cleanup all succeed on a validated request, the outcome is the accepted
(200) body echoing the submitted fields. -/
theorem upload_publish_outcome_independent (req : UploadRequest) (db : DB)
    (env : UploadEnv) :
    (∀ p1 p2 : PubCall,
      (upload_file req db (env.setPub p1)).1 = (upload_file req db (env.setPub p2)).1) ∧
    (passesValidation req = true → env.blobOk = true → env.dbEnv.executeOk = true →
      env.dbEnv.commitOk = true → env.removeOk = true →
      (upload_file req db env).1 =
        UploadOutcome.ok ⟨req.filename, req.content_type, env.digest req.file_content,
          req.location, req.name⟩) := by
  constructor
  · intro p1 p2
    cases hp : parseLocation req.location with
    | none => simp [upload_file, hp]
    | some latlon =>
      obtain ⟨lat, lon⟩ := latlon
      cases hct : allowed_content_types.contains req.content_type with
      | false =>
        have hct2 : req.content_type ∉ allowed_content_types := by simpa using hct
        simp [upload_file, UploadEnv.setPub, hp, hct2]
      | true =>
        have hct2 : req.content_type ∈ allowed_content_types := by simpa using hct
        cases hext : pyEndsWith req.filename ((guess_extension req.content_type).getD "") with
        | false => simp [upload_file, UploadEnv.setPub, hp, hct2, hext]
        | true =>
          cases hb : env.blobOk with
          | false =>
            cases hr : env.removeOk <;>
              simp [upload_file, UploadEnv.setPub, hp, hct2, hext, hb, hr, finallyRemove]
          | true =>
            rcases hm : save_metadata_to_db db env.dbEnv req.name lon lat BUCKET_NAME
                (env.uuid ++ (guess_extension req.content_type).getD "") req.username
                req.type req.description with ⟨r, db2⟩
            cases r <;> cases hr : env.removeOk <;>
              simp [upload_file, UploadEnv.setPub, hp, hct2, hext, hb, hm, hr, finallyRemove]
  · intro hv hb hex hcm hr
    simp only [passesValidation, Bool.and_eq_true] at hv
    obtain ⟨⟨hps, hct⟩, hext⟩ := hv
    have hct2 : req.content_type ∈ allowed_content_types := by simpa using hct
    cases hp : parseLocation req.location with
    | none => rw [hp] at hps; simp at hps
    | some latlon =>
      obtain ⟨lat, lon⟩ := latlon
      simp [upload_file, hp, hct2, hext, hb, save_metadata_to_db, hex, hcm,
        finallyRemove, hr]

/-- Witness for `upload_publish_outcome_independent` at the happy-path
request: a raising publish call and one returning failure give the same
outcome, and the outcome is the accepted body. -/
theorem upload_publish_outcome_independent_witness :
    (upload_file aliceReq db7 (okEnv.setPub PubCall.raises)).1 =
      (upload_file aliceReq db7 (okEnv.setPub (PubCall.returns false))).1 ∧
    (upload_file aliceReq db7 okEnv).1 =
      UploadOutcome.ok ⟨"cat.png", "image/png", "d41d8cd9",
        "\x7b\"latitude\":1.0,\"longitude\":2.0\x7d", "Alice"⟩ := by
  have h := upload_publish_outcome_independent aliceReq db7 okEnv
  exact ⟨h.1 PubCall.raises (PubCall.returns false), h.2 (by decide) rfl rfl rfl rfl⟩

/-- C3: as long as `os.remove` itself succeeds, no call to `upload_file`
leaves the temporary file behind — on the success path, the blob-failure
path and the metadata-failure path alike — and every validated request did
create the temporary file before it was deleted. -/
theorem upload_tempfile_cleanup (req : UploadRequest) (db : DB) (env : UploadEnv)
    (hr : env.removeOk = true) :
    (upload_file req db env).2.tempExists = false ∧
    (passesValidation req = true → (upload_file req db env).2.tempCreated = true) := by
  constructor
  · cases hp : parseLocation req.location with
    | none => simp [upload_file, hp]
    | some latlon =>
      obtain ⟨lat, lon⟩ := latlon
      cases hct : allowed_content_types.contains req.content_type with
      | false =>
        have hct2 : req.content_type ∉ allowed_content_types := by simpa using hct
        simp [upload_file, hp, hct2]
      | true =>
        have hct2 : req.content_type ∈ allowed_content_types := by simpa using hct
        cases hext : pyEndsWith req.filename ((guess_extension req.content_type).getD "") with
        | false => simp [upload_file, hp, hct2, hext]
        | true =>
          cases hb : env.blobOk with
          | false => simp [upload_file, hp, hct2, hext, hb, finallyRemove, hr]
          | true =>
            rcases hm : save_metadata_to_db db env.dbEnv req.name lon lat BUCKET_NAME
                (env.uuid ++ (guess_extension req.content_type).getD "") req.username
                req.type req.description with ⟨r, db2⟩
            cases r <;> simp [upload_file, hp, hct2, hext, hb, hm, finallyRemove, hr]
  · intro hv
    simp only [passesValidation, Bool.and_eq_true] at hv
    obtain ⟨⟨hps, hct⟩, hext⟩ := hv
    have hct2 : req.content_type ∈ allowed_content_types := by simpa using hct
    cases hp : parseLocation req.location with
    | none => rw [hp] at hps; simp at hps
    | some latlon =>
      obtain ⟨lat, lon⟩ := latlon
      cases hb : env.blobOk with
      | false => simp [upload_file, hp, hct2, hext, hb, finallyRemove, hr]
      | true =>
        rcases hm : save_metadata_to_db db env.dbEnv req.name lon lat BUCKET_NAME
            (env.uuid ++ (guess_extension req.content_type).getD "") req.username
            req.type req.description with ⟨r, db2⟩
        cases r <;> simp [upload_file, hp, hct2, hext, hb, hm, finallyRemove, hr]

/-- Witness for `upload_tempfile_cleanup` at the happy-path request. -/
theorem upload_tempfile_cleanup_witness :
    (upload_file aliceReq db7 okEnv).2.tempExists = false ∧
    (upload_file aliceReq db7 okEnv).2.tempCreated = true := by
  have h := upload_tempfile_cleanup aliceReq db7 okEnv rfl
  exact ⟨h.1, h.2 (by decide)⟩

example :
    publish_to_rabbitmq wellFormedMsg false
      (fun n => ⟨true, if n < 2 then PubOutcome.streamLost else PubOutcome.ok⟩) =
      ⟨true, 3, true, false⟩ := by decide

example :
    publish_to_rabbitmq wellFormedMsg true
      (fun _ => ⟨true, PubOutcome.channelClosedByBroker⟩) =
      ⟨false, 3, false, false⟩ := by decide

example :
    publish_to_rabbitmq wellFormedMsg true
      (fun _ => ⟨true, PubOutcome.unroutable⟩) =
      ⟨false, 1, true, false⟩ := by decide

example :
    publish_to_rabbitmq ⟨["type", "id", "image_url"], true, 64⟩ true
      (fun _ => ⟨true, PubOutcome.ok⟩) =
      ⟨false, 0, true, false⟩ := by decide

/-- An environment in which everything succeeds except the deletion of the
temporary file. -/
def noRemoveEnv : UploadEnv :=
  ⟨fun _ => "d41d8cd9", "u-1234", true, ⟨true, true⟩, PubCall.returns true, false⟩

/-- An environment in which the blob upload and the deletion of the
temporary file both fail. -/
def noRemoveNoBlobEnv : UploadEnv :=
  ⟨fun _ => "d41d8cd9", "u-1234", false, ⟨true, true⟩, PubCall.returns true, false⟩

/-- Counterexample to C4: `os.remove` in the `finally` block is not guarded,
so a cleanup failure after an otherwise fully successful pipeline surfaces
as an uncaught `OSError` instead of the accepted result, and on the
blob-failure path the same `OSError` replaces the original
`HTTPException(500)`. -/
theorem upload_cleanup_failure_cex :
    (upload_file aliceReq db7 noRemoveEnv).1 = UploadOutcome.exn PyError.removeOSError ∧
    (upload_file aliceReq db7 noRemoveEnv).1 ≠
      UploadOutcome.ok ⟨"cat.png", "image/png", "d41d8cd9",
        "\x7b\"latitude\":1.0,\"longitude\":2.0\x7d", "Alice"⟩ ∧
    (upload_file aliceReq db7 noRemoveNoBlobEnv).1 = UploadOutcome.exn PyError.removeOSError ∧
    (upload_file aliceReq db7 noRemoveNoBlobEnv).1 ≠
      UploadOutcome.httpError 500 uploadFailedDetail := by decide

/-- C4 (amended): a failure while deleting the temporary artifact file is
not caught: on every request that reaches the cleanup step it propagates to
the caller as an uncaught `OSError`, replacing the operation's outcome — the
accepted result on the success path as well as the `HTTPException(500)` on
the blob-failure or metadata-failure path. -/
theorem upload_cleanup_failure_propagates (req : UploadRequest) (db : DB)
    (env : UploadEnv) (hv : passesValidation req = true)
    (hr : env.removeOk = false) :
    (upload_file req db env).1 = UploadOutcome.exn PyError.removeOSError := by
  simp only [passesValidation, Bool.and_eq_true] at hv
  obtain ⟨⟨hps, hct⟩, hext⟩ := hv
  have hct2 : req.content_type ∈ allowed_content_types := by simpa using hct
  cases hp : parseLocation req.location with
  | none => rw [hp] at hps; simp at hps
  | some latlon =>
    obtain ⟨lat, lon⟩ := latlon
    cases hb : env.blobOk with
    | false => simp [upload_file, hp, hct2, hext, hb, finallyRemove, hr]
    | true =>
      rcases hm : save_metadata_to_db db env.dbEnv req.name lon lat BUCKET_NAME
          (env.uuid ++ (guess_extension req.content_type).getD "") req.username
          req.type req.description with ⟨r, db2⟩
      cases r <;> simp [upload_file, hp, hct2, hext, hb, hm, finallyRemove, hr]

/-- Witness for `upload_cleanup_failure_propagates` at the happy-path
request. -/
theorem upload_cleanup_failure_propagates_witness :
    (upload_file aliceReq db7 noRemoveEnv).1 = UploadOutcome.exn PyError.removeOSError :=
  upload_cleanup_failure_propagates aliceReq db7 noRemoveEnv (by decide) rfl

/-- A request whose declared MIME type is outside the allow-list and whose
`location` field contains no comma. -/
def badLocReq : UploadRequest :=
  ⟨"a.txt", "text/plain", "BYTES", "x", "n", "u", "t", "d"⟩

/-- Counterexample to C5: a request whose declared MIME type is outside the
allow-list does not always fail with 415 — when the `location` form field
does not split into two comma-separated parts, the handler dies first with
the `ValueError` of line 306, before the content-type check runs. -/
theorem upload_unsupported_type_preempted_cex :
    (upload_file badLocReq db7 okEnv).1 = UploadOutcome.exn PyError.unpackValueError ∧
    (upload_file badLocReq db7 okEnv).1 ≠
      UploadOutcome.httpError 415 "Unsupported file type: text/plain" := by decide

/-- C5 (amended): on every request whose `location` field parses into two
comma-separated parts, a declared MIME type outside the allow-list fails
with the 415 `HTTPException`, and an allow-listed type whose filename does
not end with the canonical extension fails with the 400 `HTTPException`; in
both cases no temporary file is created, no blob is written and the
database is untouched. -/
theorem upload_validation_rejections (req : UploadRequest) (db : DB)
    (env : UploadEnv) (lat lon : String)
    (hp : parseLocation req.location = some (lat, lon)) :
    (allowed_content_types.contains req.content_type = false →
      upload_file req db env =
        (UploadOutcome.httpError 415 ("Unsupported file type: " ++ req.content_type),
          ⟨false, false, false, db, none, none⟩)) ∧
    (allowed_content_types.contains req.content_type = true →
      pyEndsWith req.filename ((guess_extension req.content_type).getD "") = false →
      upload_file req db env =
        (UploadOutcome.httpError 400
            ("Filename extension does not match file type: expected " ++
              (guess_extension req.content_type).getD ""),
          ⟨false, false, false, db, none, none⟩)) := by
  constructor
  · intro hct
    have hct2 : req.content_type ∉ allowed_content_types := by simpa using hct
    simp [upload_file, hp, hct2]
  · intro hct hext
    have hct2 : req.content_type ∈ allowed_content_types := by simpa using hct
    simp [upload_file, hp, hct2, hext]

/-- A request with a well-formed location but a non-allow-listed MIME
type. -/
def badTypeReq : UploadRequest :=
  ⟨"a.gif", "image/gif", "BYTES", "\x7b\"latitude\":3.0,\"longitude\":4.0\x7d",
    "n", "u", "t", "d"⟩

/-- Witness for `upload_validation_rejections`: a GIF upload with a parseable
location is rejected with 415 and leaves no side effect. -/
theorem upload_validation_rejections_witness :
    upload_file badTypeReq db7 okEnv =
      (UploadOutcome.httpError 415 "Unsupported file type: image/gif",
        ⟨false, false, false, db7, none, none⟩) := by
  have h := (upload_validation_rejections badTypeReq db7 okEnv "3.0" "4.0"
      (by decide)).1 (by decide)
  exact h

/-- C6: `save_metadata_to_db` either commits and returns the store-generated
identifier of the new row — in which case the committed state is exactly the
old rows plus the one new row, with `username` stripped and `type`
lowercased — or rolls back fully and raises `HTTPException(500)`, leaving
the committed rows unchanged; a new committed row exists if and only if the
call returned an identifier. -/
theorem save_metadata_transactional (db : DB) (env : DbEnv)
    (name longitude latitude bucket_name file_name username type detail : String) :
    (∀ id, (save_metadata_to_db db env name longitude latitude bucket_name
        file_name username type detail).1 = Except.ok id →
      id = db.nextId ∧
      (save_metadata_to_db db env name longitude latitude bucket_name
        file_name username type detail).2.rows = db.rows ++
        [⟨id, name, longitude, latitude, bucket_name, file_name,
          pyStrip username, pyLower type, detail⟩]) ∧
    (∀ e, (save_metadata_to_db db env name longitude latitude bucket_name
        file_name username type detail).1 = Except.error e →
      (save_metadata_to_db db env name longitude latitude bucket_name
        file_name username type detail).2.rows = db.rows ∧ e = dbFailure) ∧
    ((∃ id, (save_metadata_to_db db env name longitude latitude bucket_name
        file_name username type detail).1 = Except.ok id) ↔
      (save_metadata_to_db db env name longitude latitude bucket_name
        file_name username type detail).2.rows ≠ db.rows) := by
  cases hex : env.executeOk with
  | false =>
    refine ⟨fun id h => by simp [save_metadata_to_db, hex] at h, fun e h => ?_, ?_⟩
    · simp [save_metadata_to_db, hex] at h ⊢
      exact h.symm
    · simp [save_metadata_to_db, hex]
  | true =>
    cases hcm : env.commitOk with
    | false =>
      refine ⟨fun id h => by simp [save_metadata_to_db, hex, hcm] at h,
        fun e h => ?_, ?_⟩
      · simp [save_metadata_to_db, hex, hcm] at h ⊢
        exact h.symm
      · simp [save_metadata_to_db, hex, hcm]
    | true =>
      refine ⟨fun id h => ?_, fun e h => by simp [save_metadata_to_db, hex, hcm] at h, ?_⟩
      · simp [save_metadata_to_db, hex, hcm] at h ⊢
        exact ⟨h.symm, by rw [h]⟩
      · constructor
        · intro _ hcontra
          have hlen := congrArg List.length hcontra
          simp [save_metadata_to_db, hex, hcm] at hlen
        · intro _
          exact ⟨db.nextId, by simp [save_metadata_to_db, hex, hcm]⟩

/-- Witness for `save_metadata_transactional`: a concrete successful insert
returns identifier 7 and appends exactly the normalized row. -/
theorem save_metadata_transactional_witness :
    7 = db7.nextId ∧
    (save_metadata_to_db db7 ⟨true, true⟩ "Alice" "2.0" "1.0" "cloud-test-bucket"
        "u.png" "alice " "Pothole" "big hole").2.rows = db7.rows ++
      [⟨7, "Alice", "2.0", "1.0", "cloud-test-bucket", "u.png", "alice",
        "pothole", "big hole"⟩] := by
  have h := (save_metadata_transactional db7 ⟨true, true⟩ "Alice" "2.0" "1.0"
      "cloud-test-bucket" "u.png" "alice " "Pothole" "big hole").1 7 rfl
  exact h

/-- C8: on a fully successful upload with username `"alice "` and report
type `"Pothole"`, the committed row stores the username stripped
(`"alice"`) and the type lowercased (`"pothole"`), while the published
event carries the original type `"Pothole"`, an id equal to the generated
blob key (the fresh UUID plus the canonical extension), an image URL equal
to the public base followed by that key, and the report identifier returned
by the insert. -/
theorem upload_normalization_and_event (req : UploadRequest) (db : DB)
    (env : UploadEnv) (lat lon : String)
    (hp : parseLocation req.location = some (lat, lon))
    (hct : allowed_content_types.contains req.content_type = true)
    (hext : pyEndsWith req.filename ((guess_extension req.content_type).getD "") = true)
    (hb : env.blobOk = true) (hex : env.dbEnv.executeOk = true)
    (hcm : env.dbEnv.commitOk = true) (hr : env.removeOk = true)
    (hu : req.username = "alice ") (ht : req.type = "Pothole") :
    (upload_file req db env).1 =
      UploadOutcome.ok ⟨req.filename, req.content_type, env.digest req.file_content,
        req.location, req.name⟩ ∧
    (upload_file req db env).2.db.rows = db.rows ++
      [⟨db.nextId, req.name, lon, lat, BUCKET_NAME,
        env.uuid ++ (guess_extension req.content_type).getD "", "alice", "pothole",
        req.description⟩] ∧
    (upload_file req db env).2.event = some
      ⟨"Pothole", env.uuid ++ (guess_extension req.content_type).getD "",
        "https://img.roaport.com/" ++ (env.uuid ++ (guess_extension req.content_type).getD ""),
        db.nextId⟩ := by
  have hct2 : req.content_type ∈ allowed_content_types := by simpa using hct
  have hstrip : pyStrip "alice " = "alice" := by decide
  have hlow : pyLower "Pothole" = "pothole" := by decide
  refine ⟨?_, ?_, ?_⟩ <;>
    simp [upload_file, hp, hct2, hext, hb, save_metadata_to_db, hex, hcm,
      finallyRemove, hr, hu, ht, hstrip, hlow]

/-- Witness for `upload_normalization_and_event` at the happy-path request:
the committed row and the published event on the concrete scenario. -/
theorem upload_normalization_and_event_witness :
    (upload_file aliceReq db7 okEnv).2.db.rows =
      [⟨7, "Alice", "2.0", "1.0", "cloud-test-bucket", "u-1234.png", "alice",
        "pothole", "big hole"⟩] ∧
    (upload_file aliceReq db7 okEnv).2.event =
      some ⟨"Pothole", "u-1234.png", "https://img.roaport.com/u-1234.png", 7⟩ := by
  have h := upload_normalization_and_event aliceReq db7 okEnv "1.0" "2.0"
    (by decide) (by decide) (by decide) rfl rfl rfl rfl rfl rfl
  exact ⟨h.2.1, h.2.2⟩

/-- A request whose `location` field is a JSON object without a comma. -/
def noCommaReq : UploadRequest :=
  ⟨"b.txt", "text/plain", "BYTES", "\x7b\"latitude\":5\x7d", "n", "u", "t", "d"⟩

/-- A well-formed request whose `location` renders the same JSON object
with the keys in reversed order. -/
def reversedLocReq : UploadRequest :=
  ⟨"cat.png", "image/png", "BYTES", "\x7b\"longitude\":2.5,\"latitude\":1.5\x7d",
    "n", "u", "t", "d"⟩

/-- C9: the `location` field is parsed by literal substring removal, not by
JSON parsing: the canonical no-whitespace rendering with the keys in order
recovers the two values exactly; inserting a space corrupts the stored
longitude; reversing the key order stores corrupted values for both
coordinates while the upload still succeeds with no validation error; and a
`location` without a comma kills the request with the line-306 `ValueError`
even though its MIME type would have been rejected by the content
validation that never runs. -/
theorem location_parse_literal_substrings :
    parseLocation "\x7b\"latitude\":1.5,\"longitude\":2.5\x7d" = some ("1.5", "2.5") ∧
    parseLocation "\x7b\"latitude\":1.5, \"longitude\":2.5\x7d" = some ("1.5", " 2.5") ∧
    parseLocation "\x7b\"longitude\":2.5,\"latitude\":1.5\x7d" =
      some ("\x7b2.5", "\"latitude\":1.5") ∧
    ((upload_file reversedLocReq db7 okEnv).1 =
      UploadOutcome.ok ⟨"cat.png", "image/png", "d41d8cd9",
        "\x7b\"longitude\":2.5,\"latitude\":1.5\x7d", "n"⟩ ∧
    (upload_file reversedLocReq db7 okEnv).2.db.rows =
      [⟨7, "n", "\"latitude\":1.5", "\x7b2.5", "cloud-test-bucket", "u-1234.png",
        "u", "t", "d"⟩]) ∧
    parseLocation "\x7b\"latitude\":5\x7d" = none ∧
    (upload_file noCommaReq db7 okEnv).1 = UploadOutcome.exn PyError.unpackValueError ∧
    allowed_content_types.contains noCommaReq.content_type = false := by decide

/-- A `.jpeg`-named JPEG upload whose `location` field has no comma. -/
def jpegBadLocReq : UploadRequest :=
  ⟨"cat.jpeg", "image/jpeg", "BYTES", "y", "n", "u", "t", "d"⟩

/-- Counterexample to C10: a `.jpeg` filename with declared type
`image/jpeg` is not always rejected with the 400 extension-mismatch error —
when the `location` field does not split into two comma-separated parts the
handler dies first with the line-306 `ValueError`. -/
theorem jpeg_extension_preempted_cex :
    (upload_file jpegBadLocReq db7 okEnv).1 = UploadOutcome.exn PyError.unpackValueError ∧
    (upload_file jpegBadLocReq db7 okEnv).1 ≠
      UploadOutcome.httpError 400
        "Filename extension does not match file type: expected .jpg" := by decide

/-- C10 (amended): for declared MIME type `image/jpeg` the canonical
extension is `.jpg` and it is the only accepted suffix, so on every request
whose `location` field parses into two comma-separated parts, a filename
not ending in `.jpg` — including one ending in `.jpeg` — is rejected with
the 400 extension-mismatch error and no side effect is performed. -/
theorem jpeg_extension_mismatch (req : UploadRequest) (db : DB)
    (env : UploadEnv) (lat lon : String)
    (hp : parseLocation req.location = some (lat, lon))
    (hct : req.content_type = "image/jpeg")
    (hext : pyEndsWith req.filename ".jpg" = false) :
    guess_extension "image/jpeg" = some ".jpg" ∧
    (upload_file req db env).1 =
      UploadOutcome.httpError 400
        "Filename extension does not match file type: expected .jpg" ∧
    (upload_file req db env).2 = ⟨false, false, false, db, none, none⟩ := by
  have hct3 : ("image/jpeg" : String) ∈ allowed_content_types := by
    simp [allowed_content_types]
  refine ⟨rfl, ?_, ?_⟩ <;>
    simp [upload_file, hp, hct, hct3, hext, guess_extension]

/-- A `.jpeg`-named JPEG upload with a parseable location. -/
def jpegReq : UploadRequest :=
  ⟨"cat.jpeg", "image/jpeg", "BYTES", "\x7b\"latitude\":1.0,\"longitude\":2.0\x7d",
    "n", "u", "t", "d"⟩

/-- Witness for `jpeg_extension_mismatch`: the concrete `.jpeg` upload is
rejected with 400. -/
theorem jpeg_extension_mismatch_witness :
    (upload_file jpegReq db7 okEnv).1 =
      UploadOutcome.httpError 400
        "Filename extension does not match file type: expected .jpg" := by
  exact (jpeg_extension_mismatch jpegReq db7 okEnv "1.0" "2.0" (by decide) rfl
    (by decide)).2.1
